import Mathlib

/-!
Verification development for the Open/R control-plane core.

Part 1 embeds the address-conversion helpers of
src/openr/common/NetworkUtil.h together with the semantics of the
folly IPAddress library operations they call (byte serialization,
fromBinary, createNetwork with mask application).

Part 2 models the Config component (validation and derived defaults)
and the per-area interface/neighbor filters.  The Config implementation
itself is not part of the sources at hand (only its tests are), so those
definitions are modelled from the specification text, consistent with
the expectations recorded in src/openr/config/tests/ConfigTest.cpp.
-/

/-- Semantics of folly::IPAddress: a value is either a V4 address
(4 bytes), a V6 address (16 bytes), or the default-constructed
unspecified address.  Bytes are machine bytes, kept as Nat < 256. -/
inductive IPAddress where
  | v4 (bytes : List Nat)
  | v6 (bytes : List Nat)
  | unspec
deriving DecidableEq, Repr

/-- isV4 of folly::IPAddress. -/
def IPAddress.isV4 : IPAddress → Bool
  | .v4 _ => true
  | _ => false

/-- isV6 of folly::IPAddress. -/
def IPAddress.isV6 : IPAddress → Bool
  | .v6 _ => true
  | _ => false

/-- Type invariant of folly::IPAddressV4 / IPAddressV6: byteCount many
bytes, each an octet. -/
def IPAddress.wfb : IPAddress → Bool
  | .v4 bs => bs.length == 4 && bs.all (fun b => b < 256)
  | .v6 bs => bs.length == 16 && bs.all (fun b => b < 256)
  | .unspec => true

/-- bitCount of folly::IPAddress: 32 for V4, 128 for V6. -/
def IPAddress.bitCount : IPAddress → Nat
  | .v4 _ => 32
  | .v6 _ => 128
  | .unspec => 0

/-- thrift::BinaryAddress: the raw address bytes plus an optional
interface name (the latter is never inspected by the functions under
verification). -/
structure BinaryAddress where
  addr : List Nat
  ifName : Option String := none
deriving DecidableEq, Repr

/-- toBinaryAddress of NetworkUtil.h lines 86-91: a V4 or V6 address is
serialized to its byteCount bytes via toBinaryAddressImpl; any other
address yields a default-constructed BinaryAddress whose addr is the
empty string. -/
def toBinaryAddress : IPAddress → BinaryAddress
  | .v4 bs => ⟨bs, none⟩
  | .v6 bs => ⟨bs, none⟩
  | .unspec => ⟨[], none⟩

/-- Semantics of folly::IPAddress::fromBinary: 4 bytes parse as V4,
16 bytes parse as V6, every other length throws
IPAddressFormatException (modelled as Except.error). -/
def fromBinary (bytes : List Nat) : Except String IPAddress :=
  if bytes.length = 4 then .ok (.v4 bytes)
  else if bytes.length = 16 then .ok (.v6 bytes)
  else .error "invalid binary address length"

/-- toIPAddress of NetworkUtil.h lines 117-122: parse the addr bytes of
a BinaryAddress with folly::IPAddress::fromBinary. -/
def toIPAddress (a : BinaryAddress) : Except String IPAddress :=
  fromBinary a.addr

/-- Keep the top k bits of one octet (k at most 8), as folly byte
masking does for the boundary byte of a network mask. -/
def maskByte (b k : Nat) : Nat :=
  b / 2 ^ (8 - k) * 2 ^ (8 - k)

/-- Mask a byte string to its first len bits, zeroing the rest; the
byte-level view of folly IPAddress::mask. -/
def maskBytes : List Nat → Nat → List Nat
  | [], _ => []
  | b :: bs, len =>
    if 8 ≤ len then b :: maskBytes bs (len - 8)
    else maskByte b len :: maskBytes bs 0

/-- folly IPAddress::mask applied at the byte level; the address family
is preserved. -/
def IPAddress.mask : IPAddress → Nat → IPAddress
  | .v4 bs, len => .v4 (maskBytes bs len)
  | .v6 bs, len => .v6 (maskBytes bs len)
  | .unspec, _ => .unspec

/-- folly::CIDRNetwork: an address paired with a mask length. -/
abbrev CIDRNetwork := IPAddress × Nat

/-- The cidr folly settles on: a negative defaultCidr means the full
bitCount of the address family. -/
def effectiveCidr (addr : IPAddress) (cidr : Int) : Nat :=
  if cidr < 0 then addr.bitCount else cidr.toNat

/-- Mask application switch of createNetwork. -/
def applyMaskFn (addr : IPAddress) (c : Nat) (applyMask : Bool) : IPAddress :=
  if applyMask then addr.mask c else addr

/-- Semantics of folly::IPAddress::createNetwork(str, defaultCidr,
applyMask) on an already-parsed address (stringifying a valid address
and reparsing it is the identity in folly): a defaultCidr above 255 is
rejected, a negative defaultCidr means the full bitCount of the family,
a cidr beyond the family bitCount is rejected, and with applyMask the
address is masked down to the cidr.  The unspecified address cannot
reach this function through toIPNetwork because fromBinary only ever
produces V4 or V6; it is mapped to an error. -/
def createNetwork (addr : IPAddress) (cidr : Int) (applyMask : Bool) :
    Except String CIDRNetwork :=
  if (255 : Int) < cidr then .error "invalid default cidr"
  else if addr = .unspec then .error "invalid address"
  else if addr.bitCount < effectiveCidr addr cidr then .error "cidr mismatch"
  else .ok (applyMaskFn addr (effectiveCidr addr cidr) applyMask,
            effectiveCidr addr cidr)

/-- thrift::IpPrefix: a BinaryAddress plus a signed 16-bit length
(kept as Int). -/
structure IpPrefixT where
  prefixAddress : BinaryAddress
  prefixLength : Int
deriving DecidableEq, Repr

/-- createIpPrefix of NetworkUtil.h lines 125-132. -/
def createIpPrefixT (a : BinaryAddress) (len : Int) : IpPrefixT :=
  ⟨a, len⟩

/-- toIpPrefix of NetworkUtil.h lines 134-137: serialize the network
address and record the mask length. -/
def toIpPrefixT (n : CIDRNetwork) : IpPrefixT :=
  createIpPrefixT (toBinaryAddress n.1) (n.2 : Int)

/-- toIPNetwork of NetworkUtil.h lines 218-231: parse the prefix
address bytes, then createNetwork with the recorded prefix length;
any folly exception is rethrown (modelled as Except.error). -/
def toIPNetwork (p : IpPrefixT) (applyMask : Bool) :
    Except String CIDRNetwork :=
  match toIPAddress p.prefixAddress with
  | .error e => .error e
  | .ok a => createNetwork a p.prefixLength applyMask

/-- Rendering of an address, used only by the non-empty branch of the
BinaryAddress toString model below; no theorem inspects its text.
V4 renders dotted decimal; V6 renders hex groups (uncompressed). -/
def v6Groups : List Nat → List Nat
  | b1 :: b2 :: rest => (b1 * 256 + b2) :: v6Groups rest
  | [b] => [b]
  | [] => []

/-- str of folly::IPAddress (abstracted rendering, see v6Groups). -/
def IPAddress.str : IPAddress → String
  | .v4 bs => String.intercalate "." (bs.map Nat.repr)
  | .v6 bs =>
      String.intercalate ":"
        ((v6Groups bs).map (fun g => String.mk (Nat.toDigits 16 g)))
  | .unspec => ""

/-- toString of NetworkUtil.h lines 151-154: an empty addr renders as
the empty string, otherwise the bytes are parsed (which can throw for
bad lengths, hence Except) and the parsed address is rendered. -/
def BinaryAddress.toStr (a : BinaryAddress) : Except String String :=
  if a.addr = [] then .ok ""
  else (toIPAddress a).map IPAddress.str

/-!
Regular expressions.  The areas of a configuration carry interface and
neighbor regexes which the Config component compiles into RE2 sets; the
area predicates are full-string matches against those sets.  We embed a
matcher (Brzozowski derivatives) for the regex subset the repository
uses (literals, the dot wildcard, postfix star), plus a compiler from
the pattern strings; unsupported metacharacters fail to compile, as an
invalid RE2 pattern does.
-/

/-- Regex abstract syntax: empty set, empty string, a literal
character, the dot wildcard, alternation, concatenation, star. -/
inductive Regex where
  | emp
  | eps
  | chr (c : Char)
  | dot
  | alt (r1 r2 : Regex)
  | cat (r1 r2 : Regex)
  | star (r : Regex)
deriving DecidableEq, Repr

/-- Does the regex accept the empty string? -/
def Regex.nullable : Regex → Bool
  | .emp => false
  | .eps => true
  | .chr _ => false
  | .dot => false
  | .alt a b => a.nullable || b.nullable
  | .cat a b => a.nullable && b.nullable
  | .star _ => true

/-- Brzozowski derivative of a regex by one character. -/
def Regex.deriv : Regex → Char → Regex
  | .emp, _ => .emp
  | .eps, _ => .emp
  | .chr c, x => if c = x then .eps else .emp
  | .dot, _ => .eps
  | .alt a b, x => .alt (a.deriv x) (b.deriv x)
  | .cat a b, x =>
      if a.nullable then .alt (.cat (a.deriv x) b) (b.deriv x)
      else .cat (a.deriv x) b
  | .star r, x => .cat (r.deriv x) (.star r)

/-- Full match of a character list against a regex (RE2 ANCHOR_BOTH
semantics: the whole string must be consumed). -/
def Regex.rmatch (r : Regex) : List Char → Bool
  | [] => r.nullable
  | c :: cs => (r.deriv c).rmatch cs

/-- Full-string match. -/
def rmatchStr (r : Regex) (s : String) : Bool :=
  r.rmatch s.data

/-- Metacharacters of RE2 outside the embedded subset; a pattern using
one fails to compile. -/
def isMeta (c : Char) : Bool :=
  c = '[' || c = ']' || c = '(' || c = ')' ||
  c = '+' || c = '?' || c = '\\' || c = '|' || c = '^' || c = '$'

/-- Pattern compiler loop: done is the regex built so far, last is the
atom a following star may apply to. -/
def parseRegexLoop : List Char → Regex → Option Regex → Option Regex
  | [], done, last => some (Regex.cat done ((last.getD .eps)))
  | c :: cs, done, last =>
    if c = '*' then
      match last with
      | none => none
      | some a => parseRegexLoop cs (Regex.cat done (Regex.star a)) none
    else if c = '.' then
      parseRegexLoop cs (Regex.cat done (last.getD .eps)) (some .dot)
    else if isMeta c then none
    else parseRegexLoop cs (Regex.cat done (last.getD .eps)) (some (.chr c))

/-- Compile one RE2 pattern of the embedded subset. -/
def compileRegex (s : String) : Option Regex :=
  parseRegexLoop s.data .eps none

/-- Compile a list of patterns into a regex set; any bad pattern makes
the whole set fail, as RE2::Set compilation does. -/
def compileRegexSet : List String → Except String (List Regex)
  | [] => .ok []
  | s :: ss =>
    match compileRegex s, compileRegexSet ss with
    | some r, .ok rs => .ok (r :: rs)
    | _, _ => .error "invalid regex"

/-!
The Config component.  The implementation (Config.cpp / Config.h) is
not among the sources at hand; the definitions below are modelled from
the specification, consistent with src/openr/config/tests/ConfigTest.cpp.
-/

/-- Modelled from the spec: the raw per-area configuration block
(thrift::AreaConfig), with its four regex lists. -/
structure AreaConfigRaw where
  area_id : String
  neighbor_regexes : List String := []
  include_interface_regexes : List String := []
  exclude_interface_regexes : List String := []
  redistribute_interface_regexes : List String := []
deriving DecidableEq, Repr

/-- Modelled from the spec: a materialized area configuration holding
the compiled regex sets. -/
structure AreaConfiguration where
  areaId : String
  neighborRegexes : List Regex
  includeIfRegexes : List Regex
  excludeIfRegexes : List Regex
  redistributeIfRegexes : List Regex
deriving DecidableEq, Repr

/-- Modelled from the spec: compile an area's regexes; the node refuses
to start when any regex fails to compile. -/
def buildAreaConfiguration (raw : AreaConfigRaw) :
    Except String AreaConfiguration :=
  match compileRegexSet raw.neighbor_regexes,
        compileRegexSet raw.include_interface_regexes,
        compileRegexSet raw.exclude_interface_regexes,
        compileRegexSet raw.redistribute_interface_regexes with
  | .ok nr, .ok ir, .ok er, .ok rr => .ok ⟨raw.area_id, nr, ir, er, rr⟩
  | _, _, _, _ => .error "invalid regex in area config"

/-- Build an area configuration, defaulting to empty regex sets when a
regex fails to compile (used only to name concrete test areas). -/
def areaOfRaw (raw : AreaConfigRaw) : AreaConfiguration :=
  match buildAreaConfiguration raw with
  | .ok a => a
  | .error _ => ⟨raw.area_id, [], [], [], []⟩

/-- Match a name against a compiled regex set (RE2::Set::Match over the
whole name). -/
def matchRegexSet (name : String) (rs : List Regex) : Bool :=
  rs.any (fun r => rmatchStr r name)

/-- Modelled from the spec: a neighbor is peered with iff it matches
the area's neighbor regexes. -/
def AreaConfiguration.shouldPeerWithNeighbor
    (a : AreaConfiguration) (neighbor : String) : Bool :=
  matchRegexSet neighbor a.neighborRegexes

/-- Modelled from the spec: an interface participates in the area iff
it matches the include regexes and not the exclude regexes. -/
def AreaConfiguration.shouldDiscoverOnIface
    (a : AreaConfiguration) (iface : String) : Bool :=
  matchRegexSet iface a.includeIfRegexes &&
  !(matchRegexSet iface a.excludeIfRegexes)

/-- Modelled from the spec: whether an interface's own addresses are
redistributed is controlled by the separate redistribute regexes. -/
def AreaConfiguration.shouldRedistributeIface
    (a : AreaConfiguration) (iface : String) : Bool :=
  matchRegexSet iface a.redistributeIfRegexes

/-- Modelled from the spec: the Spark step-detector block
(thrift::StepDetectorConfig); defaults follow the schema. -/
structure StepDetectorConf where
  fast_window_size : Int := 10
  slow_window_size : Int := 60
  lower_threshold : Int := 2
  upper_threshold : Int := 5
deriving DecidableEq, Repr

/-- Modelled from the spec: the Spark timer block
(thrift::SparkConfig); defaults follow the schema. -/
structure SparkConfig where
  neighbor_discovery_port : Int := 6666
  hello_time_s : Int := 20
  fastinit_hello_time_ms : Int := 500
  keepalive_time_s : Int := 2
  hold_time_s : Int := 10
  graceful_restart_time_s : Int := 30
  step_detector_conf : StepDetectorConf := {}
deriving DecidableEq, Repr

/-- thrift::PrefixForwardingType. -/
inductive PrefixForwardingType where
  | IP
  | SR_MPLS
deriving DecidableEq, Repr

/-- thrift::PrefixForwardingAlgorithm. -/
inductive PrefixForwardingAlgorithm where
  | SP_ECMP
  | KSP2_ED_ECMP
deriving DecidableEq, Repr

/-- thrift::PrefixAllocationMode. -/
inductive PrefixAllocationMode where
  | DYNAMIC_LEAF_NODE
  | DYNAMIC_ROOT_NODE
  | STATIC
deriving DecidableEq, Repr

/-- Modelled from the spec: the prefix-allocation block. The seed
prefix is kept in parsed form (address and mask length); a malformed
seed string is a distinct failure outside the claims here. -/
structure PrefixAllocationConfig where
  prefix_allocation_mode : PrefixAllocationMode
  seed_prefix_net : Option (IPAddress × Nat) := none
  allocate_prefix_len : Option Int := none
deriving DecidableEq, Repr

/-- Modelled from the spec: the BGP route translation block. -/
structure BgpRouteTranslationConfig where
  enable_bgp_to_openr : Bool := false
  enable_openr_to_bgp : Bool := false
  disable_legacy_translation : Bool := false
deriving DecidableEq, Repr

/-- Modelled from the spec: the slice of thrift::OpenrConfig the
verified validation rules read.  bgp_config only matters by presence,
so it is kept as Option Unit. -/
structure OpenrConfig where
  node_name : String := "node-1"
  domain : String := "domain"
  enable_v4 : Bool := false
  prefix_forwarding_type : PrefixForwardingType := .IP
  prefix_forwarding_algorithm : PrefixForwardingAlgorithm := .SP_ECMP
  spark_config : SparkConfig := {}
  enable_prefix_allocation : Bool := false
  prefix_allocation_config : Option PrefixAllocationConfig := none
  enable_bgp_peering : Bool := false
  bgp_config : Option Unit := none
  bgp_translation_config : Option BgpRouteTranslationConfig := none
  eor_time_s : Option Int := none
deriving DecidableEq, Repr

/-- Modelled from the spec: forwarding_algo = KSP2_ED_ECMP requires
forwarding_type = SR_MPLS. -/
def checkForwarding (c : OpenrConfig) : Except String Unit :=
  if c.prefix_forwarding_algorithm = .KSP2_ED_ECMP ∧
     c.prefix_forwarding_type ≠ .SR_MPLS then
    .error "KSP2_ED_ECMP algorithm requires SR_MPLS forwarding type"
  else .ok ()

/-- Modelled from the spec and ConfigTest: the Spark neighbor discovery
port is a UDP port. -/
def checkNeighborDiscoveryPort (s : SparkConfig) : Except String Unit :=
  if s.neighbor_discovery_port ≤ 0 then
    .error "neighbor_discovery_port must be positive"
  else if 65535 < s.neighbor_discovery_port then
    .error "neighbor_discovery_port out of range"
  else .ok ()

/-- Modelled from the spec: Spark timers all positive, fastinit hello
bounded by the hello interval (in milliseconds), keepalive bounded by
hold, graceful restart at least three keepalives. -/
def checkSparkTimers (s : SparkConfig) : Except String Unit :=
  if s.hello_time_s ≤ 0 then
    .error "hello_time_s must be positive"
  else if s.fastinit_hello_time_ms ≤ 0 then
    .error "fastinit_hello_time_ms must be positive"
  else if s.keepalive_time_s ≤ 0 then
    .error "keepalive_time_s must be positive"
  else if s.hello_time_s * 1000 < s.fastinit_hello_time_ms then
    .error "fastinit_hello_time_ms must not exceed hello_time_s"
  else if s.hold_time_s < s.keepalive_time_s then
    .error "keepalive_time_s must not exceed hold_time_s"
  else if s.graceful_restart_time_s < 3 * s.keepalive_time_s then
    .error "graceful_restart_time_s must be at least 3 keepalives"
  else .ok ()

/-- Modelled from the spec: step-detector windows and thresholds
positive, fast window bounded by slow window, lower threshold bounded
by upper threshold. -/
def checkStepDetector (d : StepDetectorConf) : Except String Unit :=
  if d.fast_window_size ≤ 0 then
    .error "fast_window_size must be positive"
  else if d.slow_window_size ≤ 0 then
    .error "slow_window_size must be positive"
  else if d.lower_threshold ≤ 0 then
    .error "lower_threshold must be positive"
  else if d.upper_threshold ≤ 0 then
    .error "upper_threshold must be positive"
  else if d.slow_window_size < d.fast_window_size then
    .error "fast_window_size must not exceed slow_window_size"
  else if d.upper_threshold < d.lower_threshold then
    .error "lower_threshold must not exceed upper_threshold"
  else .ok ()

/-- Modelled from the spec: with prefix allocation enabled a
prefix_allocation_config must be present; DYNAMIC_ROOT_NODE requires
seed prefix and allocate_prefix_len; the allocation length must exceed
the seed prefix length; a v4 seed prefix requires v4 enabled. -/
def checkPrefixAllocation (c : OpenrConfig) : Except String Unit :=
  if c.enable_prefix_allocation = false then .ok ()
  else
    match c.prefix_allocation_config with
    | none => .error "prefix_allocation_config is required"
    | some pac =>
      match pac.prefix_allocation_mode with
      | .DYNAMIC_ROOT_NODE =>
        match pac.seed_prefix_net, pac.allocate_prefix_len with
        | some seed, some len =>
          if len ≤ (seed.2 : Int) then
            .error "allocate_prefix_len must exceed the seed length"
          else if seed.1.isV4 = true ∧ c.enable_v4 = false then
            .error "a v4 seed requires enable_v4"
          else .ok ()
        | _, _ =>
          .error "DYNAMIC_ROOT_NODE requires seed and allocation length"
      | _ => .ok ()

/-- Modelled from the spec: BGP peering enabled requires a bgp_config. -/
def checkBgpPresence (c : OpenrConfig) : Except String Unit :=
  if c.enable_bgp_peering = true ∧ c.bgp_config = none then
    .error "bgp_config is required when bgp peering is enabled"
  else .ok ()

/-- Modelled from the spec: disabling legacy BGP translation requires
both directions of the new translation to be enabled. -/
def checkBgpTranslation (c : OpenrConfig) : Except String Unit :=
  match c.bgp_translation_config with
  | none => .ok ()
  | some t =>
    if t.disable_legacy_translation = true ∧
       ¬(t.enable_bgp_to_openr = true ∧ t.enable_openr_to_bgp = true) then
      .error "disabling legacy translation requires both directions"
    else .ok ()

/-- Modelled from the spec: derived defaults are computed once; an
unset eor_time_s becomes 3 keepalives. -/
def deriveDefaults (c : OpenrConfig) : OpenrConfig :=
  match c.eor_time_s with
  | some _ => c
  | none => { c with eor_time_s := some (3 * c.spark_config.keepalive_time_s) }

/-- Sequencing of throw-based validation: a failed check aborts
construction, a passed check falls through to the rest. -/
def seqCheck {α : Type} (x : Except String Unit) (f : Except String α) :
    Except String α :=
  match x with
  | .error e => .error e
  | .ok _ => f

/-- Modelled from the spec: Config construction validates the whole
tree (the node refuses to start on any violation) and then materializes
the derived defaults. -/
def populateInternalDb (c : OpenrConfig) : Except String OpenrConfig :=
  seqCheck (checkForwarding c)
    (seqCheck (checkNeighborDiscoveryPort c.spark_config)
      (seqCheck (checkSparkTimers c.spark_config)
        (seqCheck (checkStepDetector c.spark_config.step_detector_conf)
          (seqCheck (checkPrefixAllocation c)
            (seqCheck (checkBgpPresence c)
              (seqCheck (checkBgpTranslation c)
                (.ok (deriveDefaults c))))))))

/-- Did an operation succeed? -/
def exceptIsOk {α : Type} : Except String α → Bool
  | .ok _ => true
  | .error _ => false

/-- The Spark timer conditions of the claim, spelled as arithmetic. -/
def sparkTimersValid (s : SparkConfig) : Prop :=
  0 < s.hello_time_s ∧ 0 < s.fastinit_hello_time_ms ∧
  0 < s.keepalive_time_s ∧
  s.fastinit_hello_time_ms ≤ 1000 * s.hello_time_s ∧
  s.keepalive_time_s ≤ s.hold_time_s ∧
  3 * s.keepalive_time_s ≤ s.graceful_restart_time_s

/-- The step-detector conditions of the claim, spelled as arithmetic. -/
def stepDetectorValid (d : StepDetectorConf) : Prop :=
  0 < d.fast_window_size ∧ 0 < d.slow_window_size ∧
  0 < d.lower_threshold ∧ 0 < d.upper_threshold ∧
  d.fast_window_size ≤ d.slow_window_size ∧
  d.lower_threshold ≤ d.upper_threshold

/-- The prefix-allocation conditions of the claim: a config block is
present, and under DYNAMIC_ROOT_NODE the seed and allocation length are
present, the allocation length exceeds the seed length, and a v4 seed
has v4 enabled. -/
def paGroundsOk (c : OpenrConfig) : Prop :=
  ∃ pac, c.prefix_allocation_config = some pac ∧
    (pac.prefix_allocation_mode = .DYNAMIC_ROOT_NODE →
      ∃ seed len, pac.seed_prefix_net = some seed ∧
        pac.allocate_prefix_len = some len ∧
        (seed.2 : Int) < len ∧
        (seed.1.isV4 = true → c.enable_v4 = true))

/-!
Concrete fixtures, mirroring the configurations built in
src/openr/config/tests/ConfigTest.cpp.
-/

/-- The basic valid configuration of the tests (getBasicOpenrConfig). -/
def confDefault : OpenrConfig := {}

/-- hello_time_s forced to -1 (ConfigTest line 539). -/
def confBadHello : OpenrConfig :=
  { spark_config := { hello_time_s := -1 } }

/-- fast_window_size forced to -1 (ConfigTest line 589). -/
def confBadStep : OpenrConfig :=
  { spark_config := { step_detector_conf := { fast_window_size := -1 } } }

/-- KSP2_ED_ECMP with plain IP forwarding (ConfigTest lines 486-491). -/
def confKsp2Ip : OpenrConfig :=
  { prefix_forwarding_type := .IP,
    prefix_forwarding_algorithm := .KSP2_ED_ECMP }

/-- KSP2_ED_ECMP with SR_MPLS forwarding. -/
def confKsp2Sr : OpenrConfig :=
  { prefix_forwarding_type := .SR_MPLS,
    prefix_forwarding_algorithm := .KSP2_ED_ECMP }

/-- eor_time_s set explicitly to 2 (ConfigTest lines 1053-1060). -/
def confEor2 : OpenrConfig := { eor_time_s := some 2 }

/-- Prefix allocation enabled without a config block (ConfigTest lines
663-667). -/
def confPaMissing : OpenrConfig := { enable_prefix_allocation := true }

/-- The parsed seed prefix fc00:cafe:babe::/64 of the tests. -/
def seedGood : IPAddress × Nat :=
  (.v6 [0xfc, 0, 0xca, 0xfe, 0xba, 0xbe, 0, 0, 0, 0, 0, 0, 0, 0, 0, 0], 64)

/-- The DYNAMIC_ROOT_NODE allocation block of the tests, with
allocate_prefix_len 128 on a /64 seed. -/
def paGood : PrefixAllocationConfig :=
  { prefix_allocation_mode := .DYNAMIC_ROOT_NODE,
    seed_prefix_net := some seedGood,
    allocate_prefix_len := some 128 }

/-- Prefix allocation enabled with the valid block above. -/
def confPaGood : OpenrConfig :=
  { enable_prefix_allocation := true,
    prefix_allocation_config := some paGood }

/-- BGP peering enabled with neither bgp_config nor translation config
(ConfigTest lines 729-735). -/
def confBgpMissing : OpenrConfig := { enable_bgp_peering := true }

/-- Legacy translation disabled with both new directions enabled
(ConfigTest lines 473-479). -/
def transGood : BgpRouteTranslationConfig :=
  { enable_bgp_to_openr := true,
    enable_openr_to_bgp := true,
    disable_legacy_translation := true }

/-- A configuration carrying the consistent translation block. -/
def confBgpTransGood : OpenrConfig :=
  { enable_bgp_peering := true,
    bgp_config := some (),
    bgp_translation_config := some transGood }

/-- The area of ConfigTest AreaConfiguration (lines 423-431). -/
def testAreaRaw : AreaConfigRaw :=
  { area_id := "myArea",
    neighbor_regexes := ["fsw.*"],
    include_interface_regexes := ["iface.*"],
    exclude_interface_regexes := [".*400.*", ".*450.*"],
    redistribute_interface_regexes := ["loopback1"] }

/-- A second area sharing only the redistribute regexes with the one
above. -/
def testArea2Raw : AreaConfigRaw :=
  { area_id := "otherArea",
    neighbor_regexes := ["rsw.*"],
    include_interface_regexes := ["fboss.*"],
    exclude_interface_regexes := [],
    redistribute_interface_regexes := ["loopback1"] }

/-- An area whose every regex matches the empty string. -/
def starAreaRaw : AreaConfigRaw :=
  { area_id := "starArea",
    neighbor_regexes := [".*"],
    include_interface_regexes := [".*"],
    exclude_interface_regexes := [],
    redistribute_interface_regexes := [".*"] }

theorem maskBytes_length (bs : List Nat) (len : Nat) :
    (maskBytes bs len).length = bs.length := by
  induction bs generalizing len with
  | nil => simp [maskBytes]
  | cons b bs ih =>
      unfold maskBytes
      split <;> simp [ih]

theorem maskByte_idem (b k : Nat) :
    maskByte (maskByte b k) k = maskByte b k := by
  unfold maskByte
  rw [Nat.mul_div_cancel _ (Nat.pos_pow_of_pos _ (by norm_num))]

theorem maskBytes_idem (bs : List Nat) (len : Nat) :
    maskBytes (maskBytes bs len) len = maskBytes bs len := by
  induction bs generalizing len with
  | nil => simp [maskBytes]
  | cons b bs ih =>
      by_cases h : 8 ≤ len
      · rw [maskBytes, if_pos h, maskBytes, if_pos h, ih]
      · rw [maskBytes, if_neg h, maskBytes, if_neg h, maskByte_idem, ih]

theorem IPAddress.mask_idem (a : IPAddress) (c : Nat) :
    (a.mask c).mask c = a.mask c := by
  cases a <;> simp [IPAddress.mask, maskBytes_idem]

theorem IPAddress.mask_bitCount (a : IPAddress) (c : Nat) :
    (a.mask c).bitCount = a.bitCount := by
  cases a <;> simp [IPAddress.mask, IPAddress.bitCount]

theorem IPAddress.mask_ne_unspec (a : IPAddress) (c : Nat)
    (h : a ≠ .unspec) : a.mask c ≠ .unspec := by
  cases a <;> simp_all [IPAddress.mask]

/-- Serializing then reparsing preserves any V4 or V6 address. -/
theorem toBinaryAddress_roundtrip (a : IPAddress) (hwf : a.wfb = true)
    (hv : a.isV4 = true ∨ a.isV6 = true) :
    toIPAddress (toBinaryAddress a) = .ok a := by
  cases a with
  | v4 bs =>
      simp only [IPAddress.wfb, Bool.and_eq_true, beq_iff_eq] at hwf
      simp [toBinaryAddress, toIPAddress, fromBinary, hwf.1]
  | v6 bs =>
      simp only [IPAddress.wfb, Bool.and_eq_true, beq_iff_eq] at hwf
      simp [toBinaryAddress, toIPAddress, fromBinary, hwf.1]
  | unspec => simp [IPAddress.isV4, IPAddress.isV6] at hv

deriving instance DecidableEq for Except

theorem createNetwork_ok (addr : IPAddress) (cidr : Int) (am : Bool)
    (n : CIDRNetwork) (h : createNetwork addr cidr am = .ok n) :
    addr ≠ .unspec ∧ effectiveCidr addr cidr ≤ addr.bitCount ∧
      n = (applyMaskFn addr (effectiveCidr addr cidr) am,
           effectiveCidr addr cidr) := by
  unfold createNetwork at h
  by_cases h1 : (255 : Int) < cidr
  · rw [if_pos h1] at h; cases h
  rw [if_neg h1] at h
  by_cases h2 : addr = .unspec
  · rw [if_pos h2] at h; cases h
  rw [if_neg h2] at h
  by_cases h3 : addr.bitCount < effectiveCidr addr cidr
  · rw [if_pos h3] at h; cases h
  rw [if_neg h3] at h
  injection h with h
  exact ⟨h2, Nat.le_of_not_lt h3, h.symm⟩

theorem fromBinary_ok (bs : List Nat) (a : IPAddress)
    (h : fromBinary bs = .ok a) :
    (a = .v4 bs ∧ bs.length = 4) ∨ (a = .v6 bs ∧ bs.length = 16) := by
  unfold fromBinary at h
  split_ifs at h with h1 h2
  · injection h with h
    exact Or.inl ⟨h.symm, h1⟩
  · injection h with h
    exact Or.inr ⟨h.symm, h2⟩

theorem effectiveCidr_natCast (a : IPAddress) (c : Nat) :
    effectiveCidr a (c : Int) = c := by
  unfold effectiveCidr
  rw [if_neg (by omega)]
  simp

/-- Claim C1: parse then serialize then parse is the identity on every
IPv4 or IPv6 address, and converting an IpPrefix with the mask applied,
back to an IpPrefix, and again yields the same CIDRNetwork. -/
theorem claimC1 :
    (∀ a : IPAddress, a.wfb = true → (a.isV4 = true ∨ a.isV6 = true) →
      toIPAddress (toBinaryAddress a) = .ok a) ∧
    (∀ (p : IpPrefixT) (n : CIDRNetwork),
      toIPNetwork p true = .ok n → toIPNetwork (toIpPrefixT n) true = .ok n) := by
  refine ⟨toBinaryAddress_roundtrip, ?_⟩
  intro p n h
  unfold toIPNetwork at h
  cases ha : toIPAddress p.prefixAddress with
  | error e => rw [ha] at h; cases h
  | ok a =>
    rw [ha] at h
    obtain ⟨h2, hc, hn⟩ := createNetwork_ok _ _ _ _ h
    subst hn
    set c := effectiveCidr a p.prefixLength with hcdef
    simp only [applyMaskFn, if_pos rfl]
    have hparse : toIPAddress (toBinaryAddress (a.mask c)) = .ok (a.mask c) := by
      rcases fromBinary_ok _ _ ha with ⟨hav, hlen⟩ | ⟨hav, hlen⟩ <;>
        subst hav <;>
        simp [toBinaryAddress, IPAddress.mask, toIPAddress, fromBinary,
          maskBytes_length, hlen]
    have hble : c ≤ 128 := by
      rcases fromBinary_ok _ _ ha with ⟨hav, _⟩ | ⟨hav, _⟩ <;> subst hav <;>
        simp [IPAddress.bitCount] at hc <;> omega
    have hcreate : createNetwork (a.mask c) (c : Int) true = .ok (a.mask c, c) := by
      unfold createNetwork
      rw [effectiveCidr_natCast]
      rw [if_neg (by omega), if_neg (IPAddress.mask_ne_unspec a c h2),
        if_neg (by rw [IPAddress.mask_bitCount]; omega)]
      simp [applyMaskFn, IPAddress.mask_idem]
    simp [toIPNetwork, toIpPrefixT, createIpPrefixT, hparse, hcreate]

/-- Witness for claim C1 at concrete inputs: a V4 address round-trips,
and the network 10.0.0.1/8 masked to 10.0.0.0/8 is a fixed point of
the prefix conversion. -/
theorem claimC1_witness :
    toIPAddress (toBinaryAddress (IPAddress.v4 [192, 168, 1, 20])) =
      .ok (IPAddress.v4 [192, 168, 1, 20]) ∧
    toIPNetwork (toIpPrefixT (IPAddress.v4 [10, 0, 0, 0], 8)) true =
      .ok (IPAddress.v4 [10, 0, 0, 0], 8) :=
  ⟨claimC1.1 _ (by decide) (Or.inl rfl),
   claimC1.2 ⟨⟨[10, 0, 0, 1], none⟩, 8⟩ (IPAddress.v4 [10, 0, 0, 0], 8)
     (by decide)⟩

/-- Claim C9: the address that is neither V4 nor V6 serializes to a
BinaryAddress with empty addr bytes, and toString of any BinaryAddress
with empty addr bytes returns the empty string rather than throwing. -/
theorem claimC9 :
    toBinaryAddress IPAddress.unspec = ⟨[], none⟩ ∧
    ∀ a : BinaryAddress, a.addr = [] → a.toStr = .ok "" := by
  refine ⟨rfl, ?_⟩
  intro a h
  simp [BinaryAddress.toStr, h]

/-- Witness for claim C9 at the concrete empty BinaryAddress. -/
theorem claimC9_witness : BinaryAddress.toStr ⟨[], none⟩ = .ok "" :=
  claimC9.2 ⟨[], none⟩ rfl

theorem seqCheck_eq_ok {α : Type} (x : Except String Unit)
    (f : Except String α) (r : α) :
    seqCheck x f = .ok r ↔ x = .ok () ∧ f = .ok r := by
  cases x with
  | error e => simp [seqCheck]
  | ok u => cases u; simp [seqCheck]

theorem populateInternalDb_eq_ok (c cfg : OpenrConfig) :
    populateInternalDb c = .ok cfg ↔
      checkForwarding c = .ok () ∧
      checkNeighborDiscoveryPort c.spark_config = .ok () ∧
      checkSparkTimers c.spark_config = .ok () ∧
      checkStepDetector c.spark_config.step_detector_conf = .ok () ∧
      checkPrefixAllocation c = .ok () ∧
      checkBgpPresence c = .ok () ∧
      checkBgpTranslation c = .ok () ∧
      deriveDefaults c = cfg := by
  unfold populateInternalDb
  rw [seqCheck_eq_ok, seqCheck_eq_ok, seqCheck_eq_ok, seqCheck_eq_ok,
    seqCheck_eq_ok, seqCheck_eq_ok, seqCheck_eq_ok]
  simp

theorem checkSparkTimers_ok_iff (s : SparkConfig) :
    checkSparkTimers s = .ok () ↔ sparkTimersValid s := by
  unfold checkSparkTimers sparkTimersValid
  split_ifs <;> simp_all <;> omega

theorem checkStepDetector_ok_iff (d : StepDetectorConf) :
    checkStepDetector d = .ok () ↔ stepDetectorValid d := by
  unfold checkStepDetector stepDetectorValid
  split_ifs <;> simp_all

theorem checkPrefixAllocation_ok_iff (c : OpenrConfig)
    (he : c.enable_prefix_allocation = true) :
    checkPrefixAllocation c = .ok () ↔ paGroundsOk c := by
  unfold checkPrefixAllocation paGroundsOk
  rw [he]
  simp only [Bool.true_eq_false, if_false]
  cases hcfg : c.prefix_allocation_config with
  | none => simp
  | some pac =>
    simp only [Option.some.injEq]
    split
    · rename_i x hm
      split
      · rename_i xs xl seed len hs hl
        split_ifs with hlen hv4
        · constructor
          · intro hco; cases hco
          · rintro ⟨pac2, rfl, hroot⟩
            obtain ⟨seed2, len2, hseq, hleq, hlt, _⟩ := hroot hm
            rw [hs] at hseq
            rw [hl] at hleq
            injection hseq with hseq
            injection hleq with hleq
            subst hseq
            subst hleq
            omega
        · constructor
          · intro hco; cases hco
          · rintro ⟨pac2, rfl, hroot⟩
            obtain ⟨seed2, len2, hseq, hleq, _, himp⟩ := hroot hm
            rw [hs] at hseq
            rw [hl] at hleq
            injection hseq with hseq
            injection hleq with hleq
            subst hseq
            subst hleq
            exact absurd (himp hv4.1) (by simp [hv4.2])
        · constructor
          · intro _
            refine ⟨pac, rfl, fun _ => ⟨seed, len, hs, hl, by omega, ?_⟩⟩
            intro hisv4
            cases hen : c.enable_v4 with
            | true => rfl
            | false => exact absurd ⟨hisv4, hen⟩ hv4
          · intro _; rfl
      · rename_i xs xl hno
        constructor
        · intro hco; cases hco
        · rintro ⟨pac2, rfl, hroot⟩
          obtain ⟨seed2, len2, hseq, hleq, _, _⟩ := hroot hm
          exact (hno seed2 len2 hseq hleq).elim
    · rename_i x hnr
      exact iff_of_true rfl ⟨pac, rfl, fun h => (hnr h).elim⟩

theorem deriveDefaults_fwd (c : OpenrConfig) :
    (deriveDefaults c).prefix_forwarding_type = c.prefix_forwarding_type ∧
    (deriveDefaults c).prefix_forwarding_algorithm =
      c.prefix_forwarding_algorithm := by
  unfold deriveDefaults
  cases c.eor_time_s <;> simp

/-- Claim C2: Config construction fails when a Spark timer is not
positive, the fastinit hello exceeds the hello interval in
milliseconds, the keepalive exceeds the hold time, or the graceful
restart window is below three keepalives; and the Spark timer check
passes exactly when all of those conditions hold. -/
theorem claimC2 (c : OpenrConfig) :
    (¬ sparkTimersValid c.spark_config →
      exceptIsOk (populateInternalDb c) = false) ∧
    (checkSparkTimers c.spark_config = .ok () ↔
      sparkTimersValid c.spark_config) := by
  refine ⟨?_, checkSparkTimers_ok_iff _⟩
  intro hnv
  cases hp : populateInternalDb c with
  | error e => simp [exceptIsOk]
  | ok cfg =>
    obtain ⟨_, _, hspark, _⟩ := (populateInternalDb_eq_ok c cfg).mp hp
    exact absurd ((checkSparkTimers_ok_iff _).mp hspark) hnv

/-- Witness for claim C2: the configuration with hello_time_s = -1 is
rejected, and the default timer block passes the check. -/
theorem claimC2_witness :
    exceptIsOk (populateInternalDb confBadHello) = false ∧
    checkSparkTimers confDefault.spark_config = .ok () :=
  ⟨(claimC2 confBadHello).1 (by unfold sparkTimersValid; decide),
   (claimC2 confDefault).2.mpr (by unfold sparkTimersValid; decide)⟩

/-- Claim C3: KSP2_ED_ECMP with plain IP forwarding is rejected, and a
successfully constructed Config never carries KSP2_ED_ECMP with a
forwarding type other than SR_MPLS. -/
theorem claimC3 (c : OpenrConfig) :
    (c.prefix_forwarding_algorithm = .KSP2_ED_ECMP →
     c.prefix_forwarding_type = .IP →
      exceptIsOk (populateInternalDb c) = false) ∧
    (∀ cfg, populateInternalDb c = .ok cfg →
      cfg.prefix_forwarding_algorithm = .KSP2_ED_ECMP →
      cfg.prefix_forwarding_type = .SR_MPLS) := by
  constructor
  · intro halgo htype
    cases hp : populateInternalDb c with
    | error e => simp [exceptIsOk]
    | ok cfg =>
      obtain ⟨hfwd, _⟩ := (populateInternalDb_eq_ok c cfg).mp hp
      unfold checkForwarding at hfwd
      rw [if_pos ⟨halgo, by simp [htype]⟩] at hfwd
      cases hfwd
  · intro cfg hp halgo
    obtain ⟨hfwd, _, _, _, _, _, _, hcfg⟩ :=
      (populateInternalDb_eq_ok c cfg).mp hp
    subst hcfg
    have halgo' : c.prefix_forwarding_algorithm = .KSP2_ED_ECMP := by
      rw [← (deriveDefaults_fwd c).2]; exact halgo
    unfold checkForwarding at hfwd
    by_cases hty : c.prefix_forwarding_type = .SR_MPLS
    · rw [(deriveDefaults_fwd c).1]; exact hty
    · rw [if_pos ⟨halgo', hty⟩] at hfwd; cases hfwd

/-- Witness for claim C3: the KSP2-with-IP configuration of the test is
rejected; the KSP2-with-SR_MPLS configuration constructs and keeps the
SR_MPLS forwarding type. -/
theorem claimC3_witness :
    exceptIsOk (populateInternalDb confKsp2Ip) = false ∧
    (deriveDefaults confKsp2Sr).prefix_forwarding_type = .SR_MPLS :=
  ⟨(claimC3 confKsp2Ip).1 rfl rfl,
   (claimC3 confKsp2Sr).2 (deriveDefaults confKsp2Sr) (by decide) (by decide)⟩

/-- Claim C4: a constructed Config has eor_time_s = 3 keepalives when
the input left it unset, and keeps an explicitly set value unaltered. -/
theorem claimC4 (c cfg : OpenrConfig) (h : populateInternalDb c = .ok cfg) :
    (c.eor_time_s = none →
      cfg.eor_time_s = some (3 * c.spark_config.keepalive_time_s)) ∧
    (∀ v, c.eor_time_s = some v → cfg.eor_time_s = some v) := by
  obtain ⟨_, _, _, _, _, _, _, hcfg⟩ := (populateInternalDb_eq_ok c cfg).mp h
  subst hcfg
  unfold deriveDefaults
  constructor
  · intro hnone
    rw [hnone]
  · intro v hv
    rw [hv]
    exact hv

/-- Witness for claim C4: the default config (keepalive 2, eor unset)
materializes eor_time_s = 6; an explicit eor_time_s = 2 is kept. -/
theorem claimC4_witness :
    (deriveDefaults confDefault).eor_time_s =
      some (3 * confDefault.spark_config.keepalive_time_s) ∧
    (deriveDefaults confEor2).eor_time_s = some 2 :=
  ⟨(claimC4 confDefault (deriveDefaults confDefault) (by decide)).1 rfl,
   (claimC4 confEor2 (deriveDefaults confEor2) (by decide)).2 2 rfl⟩

/-- Claim C5: with prefix allocation enabled, construction fails when
the config block is missing, or DYNAMIC_ROOT_NODE lacks seed or
allocation length, or the allocation length does not exceed the seed
length, or a v4 seed lacks enable_v4; the allocation check passes
exactly when those grounds are all satisfied. -/
theorem claimC5 (c : OpenrConfig) (he : c.enable_prefix_allocation = true) :
    (¬ paGroundsOk c → exceptIsOk (populateInternalDb c) = false) ∧
    (checkPrefixAllocation c = .ok () ↔ paGroundsOk c) := by
  refine ⟨?_, checkPrefixAllocation_ok_iff c he⟩
  intro hnv
  cases hp : populateInternalDb c with
  | error e => simp [exceptIsOk]
  | ok cfg =>
    obtain ⟨_, _, _, _, hpa, _⟩ := (populateInternalDb_eq_ok c cfg).mp hp
    exact absurd ((checkPrefixAllocation_ok_iff c he).mp hpa) hnv

/-- Witness for claim C5: allocation enabled without a config block is
rejected; the valid DYNAMIC_ROOT_NODE block of the test passes. -/
theorem claimC5_witness :
    exceptIsOk (populateInternalDb confPaMissing) = false ∧
    checkPrefixAllocation confPaGood = .ok () :=
  ⟨(claimC5 confPaMissing rfl).1 (by
      rintro ⟨pac, hpac, _⟩
      exact Option.noConfusion hpac),
   (claimC5 confPaGood rfl).2.mpr
     ⟨paGood, rfl, fun _ => ⟨seedGood, 128, rfl, rfl, by decide, by decide⟩⟩⟩

/-- Claim C7: BGP peering enabled without a bgp_config is rejected; and
with a translation config that disables legacy translation, the
translation check passes exactly when both new directions are
enabled. -/
theorem claimC7 (c : OpenrConfig) :
    (c.enable_bgp_peering = true → c.bgp_config = none →
      exceptIsOk (populateInternalDb c) = false) ∧
    (∀ t, c.bgp_translation_config = some t →
      t.disable_legacy_translation = true →
      (checkBgpTranslation c = .ok () ↔
        (t.enable_bgp_to_openr = true ∧ t.enable_openr_to_bgp = true))) := by
  constructor
  · intro hpeer hnone
    cases hp : populateInternalDb c with
    | error e => simp [exceptIsOk]
    | ok cfg =>
      obtain ⟨_, _, _, _, _, hpres, _⟩ := (populateInternalDb_eq_ok c cfg).mp hp
      unfold checkBgpPresence at hpres
      rw [if_pos ⟨hpeer, hnone⟩] at hpres
      cases hpres
  · intro t ht hdis
    have hred : checkBgpTranslation c =
        if t.disable_legacy_translation = true ∧
           ¬(t.enable_bgp_to_openr = true ∧ t.enable_openr_to_bgp = true) then
          Except.error "disabling legacy translation requires both directions"
        else Except.ok () := by
      unfold checkBgpTranslation
      rw [ht]
    rw [hred]
    by_cases hen : t.enable_bgp_to_openr = true ∧ t.enable_openr_to_bgp = true
    · rw [if_neg (fun hco => hco.2 hen)]
      simp [hen]
    · rw [if_pos ⟨hdis, hen⟩]
      simpa using hen

/-- Witness for claim C7: peering without bgp_config is rejected; the
translation block with both directions enabled passes. -/
theorem claimC7_witness :
    exceptIsOk (populateInternalDb confBgpMissing) = false ∧
    checkBgpTranslation confBgpTransGood = .ok () :=
  ⟨(claimC7 confBgpMissing).1 rfl rfl,
   ((claimC7 confBgpTransGood).2 transGood rfl rfl).mpr ⟨rfl, rfl⟩⟩

/-- Claim C8: construction fails when a step-detector field is not
positive, the fast window exceeds the slow window, or the lower
threshold exceeds the upper threshold; the step-detector check passes
exactly when all of those conditions hold. -/
theorem claimC8 (c : OpenrConfig) :
    (¬ stepDetectorValid c.spark_config.step_detector_conf →
      exceptIsOk (populateInternalDb c) = false) ∧
    (checkStepDetector c.spark_config.step_detector_conf = .ok () ↔
      stepDetectorValid c.spark_config.step_detector_conf) := by
  refine ⟨?_, checkStepDetector_ok_iff _⟩
  intro hnv
  cases hp : populateInternalDb c with
  | error e => simp [exceptIsOk]
  | ok cfg =>
    obtain ⟨_, _, _, hstep, _⟩ := (populateInternalDb_eq_ok c cfg).mp hp
    exact absurd ((checkStepDetector_ok_iff _).mp hstep) hnv

/-- Witness for claim C8: fast_window_size = -1 is rejected, and the
default step-detector block passes the check. -/
theorem claimC8_witness :
    exceptIsOk (populateInternalDb confBadStep) = false ∧
    checkStepDetector confDefault.spark_config.step_detector_conf = .ok () :=
  ⟨(claimC8 confBadStep).1 (by unfold stepDetectorValid; decide),
   (claimC8 confDefault).2.mpr (by unfold stepDetectorValid; decide)⟩

theorem matchRegexSet_eq_false (name : String) (rs : List Regex)
    (h : ∀ r ∈ rs, rmatchStr r name = false) :
    matchRegexSet name rs = false := by
  unfold matchRegexSet
  rw [List.any_eq_false]
  intro r hr
  simp [h r hr]

/-- Claim C6: an interface participates in an area iff it matches at
least one include regex and none of the exclude regexes; whether it is
redistributed is decided solely by the redistribute regexes. -/
theorem claimC6 (a : AreaConfiguration) (s : String) :
    (a.shouldDiscoverOnIface s = true ↔
      ((∃ r ∈ a.includeIfRegexes, rmatchStr r s = true) ∧
       ∀ r ∈ a.excludeIfRegexes, rmatchStr r s = false)) ∧
    (∀ b : AreaConfiguration,
      b.redistributeIfRegexes = a.redistributeIfRegexes →
      b.shouldRedistributeIface s = a.shouldRedistributeIface s) := by
  constructor
  · unfold AreaConfiguration.shouldDiscoverOnIface matchRegexSet
    simp [List.any_eq_true, List.any_eq_false]
  · intro b hred
    unfold AreaConfiguration.shouldRedistributeIface
    rw [hred]

/-- Witness for claim C6: iface20 participates in the test's area, and
two areas sharing only the redistribute regexes agree on
redistribution. -/
theorem claimC6_witness :
    (areaOfRaw testAreaRaw).shouldDiscoverOnIface "iface20" = true ∧
    (areaOfRaw testArea2Raw).shouldRedistributeIface "loopback1" =
      (areaOfRaw testAreaRaw).shouldRedistributeIface "loopback1" :=
  ⟨(claimC6 (areaOfRaw testAreaRaw) "iface20").1.mpr (by decide),
   (claimC6 (areaOfRaw testAreaRaw) "loopback1").2 (areaOfRaw testArea2Raw)
     (by decide)⟩

/-- Refutation of claim C10 as stated: an area whose regexes match the
empty string (include, neighbor and redistribute all set to the
dot-star pattern) makes all three predicates true on the empty
string. -/
theorem claimC10_counterexample :
    (areaOfRaw starAreaRaw).shouldPeerWithNeighbor "" = true ∧
    (areaOfRaw starAreaRaw).shouldDiscoverOnIface "" = true ∧
    (areaOfRaw starAreaRaw).shouldRedistributeIface "" = true := by
  decide

/-- Claim C10 (amended): for every area configuration none of whose
regexes matches the empty string — the test's areas among them — the
empty string fails all three predicates, so such an unnamed neighbor or
interface never participates; the empty string receives no special
treatment beyond ordinary regex matching. -/
theorem claimC10 (a : AreaConfiguration)
    (h1 : ∀ r ∈ a.neighborRegexes, rmatchStr r "" = false)
    (h2 : ∀ r ∈ a.includeIfRegexes, rmatchStr r "" = false)
    (h3 : ∀ r ∈ a.redistributeIfRegexes, rmatchStr r "" = false) :
    a.shouldPeerWithNeighbor "" = false ∧
    a.shouldDiscoverOnIface "" = false ∧
    a.shouldRedistributeIface "" = false := by
  refine ⟨matchRegexSet_eq_false _ _ h1, ?_, matchRegexSet_eq_false _ _ h3⟩
  unfold AreaConfiguration.shouldDiscoverOnIface
  rw [matchRegexSet_eq_false _ _ h2]
  rfl

/-- Witness for claim C10 at the test's area configuration: the empty
string fails all three predicates there. -/
theorem claimC10_witness :
    (areaOfRaw testAreaRaw).shouldPeerWithNeighbor "" = false ∧
    (areaOfRaw testAreaRaw).shouldDiscoverOnIface "" = false ∧
    (areaOfRaw testAreaRaw).shouldRedistributeIface "" = false :=
  claimC10 (areaOfRaw testAreaRaw) (by decide) (by decide) (by decide)
